import Mathlib

/-!
Verification of the SumoLogic MCP server (mcp-sumologic) against its
specification.  The repository holds two near-duplicate implementations of
the same design: `src/index.ts` (namespace `IndexTs` below) and the
implementation embedded in `src/README.md` (namespace `Readme` below).
Handlers are shallowly embedded as pure functions from the tool arguments
and the outcome of each remote HTTP call (an oracle) to the handler result
together with the trace of HTTP requests the handler issued, in order.
-/

namespace Sumo

/-- JSON values, as produced and consumed by the handlers.  JavaScript
undefined is modelled by `Option` at the use sites, never as a `Json`
constructor, matching `JSON.stringify` which drops undefined members. -/
inductive Json where
  | null
  | bool (b : Bool)
  | num (n : Int)
  | str (s : String)
  | arr (elems : List Json)
  | obj (members : List (String × Json))

/-- Escaping of one character inside a JSON string literal, as done by
`JSON.stringify` for the characters that occur in this development. -/
def escapeJsonChar (c : Char) : String :=
  if c = '"' then "\\\""
  else if c = '\\' then "\\\\"
  else if c = '\n' then "\\n"
  else if c = '\r' then "\\r"
  else if c = '\t' then "\\t"
  else String.singleton c

/-- A JSON string literal: quotes around the escaped characters. -/
def jsonQuote (s : String) : String :=
  "\"" ++ String.join (s.data.map escapeJsonChar) ++ "\""

mutual

/-- Compact serialization, the behaviour of `JSON.stringify(v)`. -/
def Json.stringify : Json → String
  | .null => "null"
  | .bool b => cond b "true" "false"
  | .num n => toString n
  | .str s => jsonQuote s
  | .arr xs => "[" ++ stringifyElems xs ++ "]"
  | .obj xs => "\x7b" ++ stringifyMembers xs ++ "\x7d"

/-- Comma-separated serialization of array elements. -/
def stringifyElems : List Json → String
  | [] => ""
  | [x] => Json.stringify x
  | x :: y :: xs => Json.stringify x ++ "," ++ stringifyElems (y :: xs)

/-- Comma-separated serialization of object members. -/
def stringifyMembers : List (String × Json) → String
  | [] => ""
  | [(k, v)] => jsonQuote k ++ ":" ++ Json.stringify v
  | (k, v) :: y :: xs =>
    jsonQuote k ++ ":" ++ Json.stringify v ++ "," ++ stringifyMembers (y :: xs)

end

/-- `n` space characters, for the indented serialization. -/
def spaces (n : Nat) : String :=
  String.mk (List.replicate n ' ')

mutual

/-- Indented serialization, the behaviour of `JSON.stringify(v, null, 2)`
rendered at indentation level `ind` (the indentation of the closing
bracket). -/
def Json.pretty : Nat → Json → String
  | _, .null => "null"
  | _, .bool b => cond b "true" "false"
  | _, .num n => toString n
  | _, .str s => jsonQuote s
  | _, .arr [] => "[]"
  | ind, .arr (x :: xs) =>
    "[\n" ++ prettyElems (ind + 2) (x :: xs) ++ "\n" ++ spaces ind ++ "]"
  | _, .obj [] => "\x7b\x7d"
  | ind, .obj (x :: xs) =>
    "\x7b\n" ++ prettyMembers (ind + 2) (x :: xs) ++ "\n" ++ spaces ind ++ "\x7d"

/-- Indented serialization of array elements, one per line. -/
def prettyElems : Nat → List Json → String
  | _, [] => ""
  | ind, [x] => spaces ind ++ Json.pretty ind x
  | ind, x :: y :: xs =>
    spaces ind ++ Json.pretty ind x ++ ",\n" ++ prettyElems ind (y :: xs)

/-- Indented serialization of object members, one per line. -/
def prettyMembers : Nat → List (String × Json) → String
  | _, [] => ""
  | ind, [(k, v)] => spaces ind ++ jsonQuote k ++ ": " ++ Json.pretty ind v
  | ind, (k, v) :: y :: xs =>
    spaces ind ++ jsonQuote k ++ ": " ++ Json.pretty ind v ++ ",\n" ++
      prettyMembers ind (y :: xs)

end

/-- The structured remote response an axios error may carry:
`error.response.status` and `error.response.data`. -/
structure ErrResponse where
  status : Nat
  data : Json

/-- The JavaScript error value reaching a catch block, as far as the two
normalizers inspect it: an optional structured response, an optional
`message` string (absent for non-Error thrown values), and the two
instanceof facts the README implementation tests. -/
structure JsError where
  response : Option ErrResponse
  message : Option String
  isAxiosError : Bool
  isErrorInstance : Bool

/-- JavaScript template-literal rendering of a possibly-undefined string:
undefined interpolates as the text undefined. -/
def jsTemplate : Option String → String
  | some s => s
  | none => "undefined"

/-- A fields record, the JSON object of string keys to string values that
the zod schema `z.record(z.string())` admits. -/
abbrev Fields := List (String × String)

/-- A JavaScript value of object type as the untyped index.ts parameter
declarations admit it: undefined (absent), null, or an object.  Under the
README zod schemas the null case cannot arise; the functions below are
defined on the larger domain. -/
inductive JsObj where
  | undefined
  | null
  | obj (val : Fields)
deriving DecidableEq

/-- A collector as fetched from the remote service: the four fields the
update flow touches, plus the remaining JSON members, which the object
spread in the update flow copies through unchanged. -/
structure Collector where
  name : Option String
  description : Option String
  category : Option String
  fields : Option Fields
  extra : List (String × String)
deriving DecidableEq

/-- JavaScript `supplied || current` on strings: an undefined or empty
(falsy) supplied value keeps the current one. -/
def jsOrStr (supplied current : Option String) : Option String :=
  match supplied with
  | some s => if s = "" then current else some s
  | none => current

/-- JavaScript `supplied || current` on an object-typed value: undefined
and null are falsy and keep the current value; any object, the empty one
included, is truthy and overrides. -/
def jsOrObj (supplied : JsObj) (current : Option Fields) : Option Fields :=
  match supplied with
  | .obj f => some f
  | _ => current

/-- The merge step of update_collector, identical in both implementations:
spread the fetched collector, then set name and category by truthy
override, description by defined override, and fields by truthy
override. -/
def mergeCollector (currentCollector : Collector)
    (name description category : Option String) (fields : JsObj) : Collector :=
  { currentCollector with
    name := jsOrStr name currentCollector.name
    description :=
      if description.isSome then description else currentCollector.description
    category := jsOrStr category currentCollector.category
    fields := jsOrObj fields currentCollector.fields }

/-- The body of the create_hosted_collector POST, the object the handler
wraps under the collector key: collectorType is the literal Hosted and the
optional arguments are copied verbatim, absent ones staying undefined. -/
structure HostedCollectorBody where
  collectorType : String
  name : String
  description : Option String
  category : Option String
  fields : Option Fields
deriving DecidableEq

/-- One HTTP request as issued through the shared axios client, restricted
to the shapes the embedded handlers emit: a GET with query parameters, the
collector-creation POST, and the conditional collector PUT carrying the
If-Match header value. -/
inductive Request where
  | get (path : String) (params : List (String × String))
  | postCollector (path : String) (body : HostedCollectorBody)
  | putCollector (path : String) (body : Collector) (ifMatch : Option String)
deriving DecidableEq

/-- Whether a request is the conditional collector write. -/
def Request.isPut : Request → Bool
  | .putCollector _ _ _ => true
  | _ => false

/-- Whether a request is a GET. -/
def Request.isGet : Request → Bool
  | .get _ _ => true
  | _ => false

/-- One content block of a protocol result, always of type text here. -/
structure ContentBlock where
  type : String
  text : String

/-- The protocol result envelope the README handlers return: content blocks
plus the error flag, false when the isError member is absent. -/
structure ToolResult where
  content : List ContentBlock
  isError : Bool

/-- The response of the GET step of update_collector, as far as the handler
reads it: `getResponse.data.collector` and `getResponse.headers.etag`. -/
structure FetchResponse where
  collector : Collector
  etag : Option String

namespace IndexTs

/-- Error normalizer of src/index.ts (lines 49 to 54): if `error.response`
is present, format status and stringified body; otherwise format
`error.message` in a template literal.  There is no third branch. -/
def handleApiError (error : JsError) : String :=
  match error.response with
  | some r => "API Error: " ++ toString r.status ++ " - " ++ Json.stringify r.data
  | none => "Error: " ++ jsTemplate error.message

/-- The value an index.ts handler execute function delivers to the protocol
SDK: a returned payload (raw data or a synthesized status object), or a
rejection with the message of the thrown Error. -/
inductive Outcome where
  | ok (data : Json)
  | okStatus (status : String) (message : String)
  | thrown (message : String)

/-- check_connection of src/index.ts: GET /v1/collectors, return a status
object on success, and on failure return (not throw) a status object with
the normalized diagnostic as message. -/
def check_connection (r : Except JsError Json) : Outcome × List Request :=
  let trace := [Request.get "/v1/collectors" []]
  match r with
  | .ok _ => (.okStatus "success" "Connection to SumoLogic API successful", trace)
  | .error e => (.okStatus "error" (handleApiError e), trace)

/-- list_collectors of src/index.ts: GET /v1/collectors, return the data on
success, and on failure throw an Error carrying the normalized
diagnostic. -/
def list_collectors (r : Except JsError Json) : Outcome × List Request :=
  let trace := [Request.get "/v1/collectors" []]
  match r with
  | .ok data => (.ok data, trace)
  | .error e => (.thrown (handleApiError e), trace)

/-- get_collector of src/index.ts: GET the collector by id. -/
def get_collector (collector_id : String) (r : Except JsError Json) :
    Outcome × List Request :=
  let trace := [Request.get ("/v1/collectors/" ++ collector_id) []]
  match r with
  | .ok data => (.ok data, trace)
  | .error e => (.thrown (handleApiError e), trace)

/-- A parameter declaration of an index.ts tool definition. -/
structure McpToolParameter where
  name : String
  description : String
  type : String
  required : Bool

/-- The declared parameter schema of get_collector in src/index.ts (lines
98 to 105): collector_id, a required string. -/
def get_collector_parameters : List McpToolParameter :=
  [⟨"collector_id", "The ID of the collector to retrieve", "string", true⟩]

/-- create_hosted_collector of src/index.ts: build the body with
collectorType Hosted and the arguments copied verbatim, POST it once, and
return the data or throw the normalized diagnostic. -/
def create_hosted_collector (name : String)
    (description category : Option String) (fields : Option Fields)
    (r : Except JsError Json) : Outcome × List Request :=
  let collectorData : HostedCollectorBody :=
    ⟨"Hosted", name, description, category, fields⟩
  let trace := [Request.postCollector "/v1/collectors" collectorData]
  match r with
  | .ok data => (.ok data, trace)
  | .error e => (.thrown (handleApiError e), trace)

/-- update_collector of src/index.ts (lines 202 to 231): GET the current
collector and its etag header, merge the supplied fields over it, then PUT
the merged body once with the etag as If-Match.  `fetch` is the outcome of
the GET and `put` the outcome of the PUT as a function of the body and
If-Match value actually sent.  On either failure the handler throws the
normalized diagnostic; there is no re-fetch and no second write. -/
def update_collector (collector_id : String)
    (name description category : Option String) (fields : JsObj)
    (fetch : Except JsError FetchResponse)
    (put : Collector → Option String → Except JsError Json) :
    Outcome × List Request :=
  let getReq := Request.get ("/v1/collectors/" ++ collector_id) []
  match fetch with
  | .error e => (.thrown (handleApiError e), [getReq])
  | .ok getResponse =>
    let currentCollector := getResponse.collector
    let etag := getResponse.etag
    let collectorData :=
      mergeCollector currentCollector name description category fields
    let putReq :=
      Request.putCollector ("/v1/collectors/" ++ collector_id) collectorData etag
    match put collectorData etag with
    | .error e => (.thrown (handleApiError e), [getReq, putReq])
    | .ok data => (.ok data, [getReq, putReq])

/-- get_search_job_results of src/index.ts (lines 459 to 477): GET the
messages url, adding the limit and offset query parameters, each rendered
with toString, only when the argument is defined. -/
def get_search_job_results (job_id : String) (limit offset : Option Int)
    (r : Except JsError Json) : Outcome × List Request :=
  let url := "/v1/search/jobs/" ++ job_id ++ "/messages"
  let params :=
    (match limit with
     | some l => [("limit", toString l)]
     | none => []) ++
    (match offset with
     | some o => [("offset", toString o)]
     | none => [])
  let trace := [Request.get url params]
  match r with
  | .ok data => (.ok data, trace)
  | .error e => (.thrown (handleApiError e), trace)

end IndexTs

namespace Readme

/-- Error normalizer of the README implementation: an AxiosError carrying a
response formats status and stringified body; otherwise an Error instance
formats its message; otherwise the generic text. -/
def handleApiError (error : JsError) : String :=
  match error.isAxiosError, error.response with
  | true, some r =>
    "API Error: " ++ toString r.status ++ " - " ++ Json.stringify r.data
  | _, _ =>
    if error.isErrorInstance then "Error: " ++ jsTemplate error.message
    else "Unknown error occurred"

/-- A returned result: one text content block, error flag absent (false). -/
def textContent (s : String) : ToolResult :=
  ⟨[⟨"text", s⟩], false⟩

/-- An error-flagged result: one text content block, isError true. -/
def errorContent (s : String) : ToolResult :=
  ⟨[⟨"text", s⟩], true⟩

/-- check_connection of the README implementation: GET /v1/collectors, and
in both branches return a plain (never error-flagged) result whose text is
the compact stringification of a status object; on failure the message is
the normalized diagnostic. -/
def check_connection (r : Except JsError Json) : ToolResult × List Request :=
  let trace := [Request.get "/v1/collectors" []]
  match r with
  | .ok _ =>
    (textContent (Json.stringify (Json.obj
      [("status", .str "success"),
       ("message", .str "Connection to SumoLogic API successful")])), trace)
  | .error e =>
    (textContent (Json.stringify (Json.obj
      [("status", .str "error"),
       ("message", .str (handleApiError e))])), trace)

/-- list_collectors of the README implementation: GET /v1/collectors,
return the indented data on success, and the normalized diagnostic as an
error-flagged result on failure. -/
def list_collectors (r : Except JsError Json) : ToolResult × List Request :=
  let trace := [Request.get "/v1/collectors" []]
  match r with
  | .ok data => (textContent (Json.pretty 0 data), trace)
  | .error e => (errorContent (handleApiError e), trace)

/-- get_collector of the README implementation: GET the collector by id
(the zod schema declares collector_id as a required string). -/
def get_collector (collector_id : String) (r : Except JsError Json) :
    ToolResult × List Request :=
  let trace := [Request.get ("/v1/collectors/" ++ collector_id) []]
  match r with
  | .ok data => (textContent (Json.pretty 0 data), trace)
  | .error e => (errorContent (handleApiError e), trace)

/-- create_hosted_collector of the README implementation: build the body
with collectorType Hosted and the arguments copied verbatim, POST it once,
and return the data or the normalized diagnostic as an error-flagged
result. -/
def create_hosted_collector (name : String)
    (description category : Option String) (fields : Option Fields)
    (r : Except JsError Json) : ToolResult × List Request :=
  let collectorData : HostedCollectorBody :=
    ⟨"Hosted", name, description, category, fields⟩
  let trace := [Request.postCollector "/v1/collectors" collectorData]
  match r with
  | .ok data => (textContent (Json.pretty 0 data), trace)
  | .error e => (errorContent (handleApiError e), trace)

/-- update_collector of the README implementation: GET the current
collector and its etag header, merge the supplied fields over it, then PUT
the merged body once with the etag as If-Match.  The zod schema restricts
fields to the undefined and obj cases of JsObj.  On either failure the handler
returns the normalized diagnostic as an error-flagged result; there is no
re-fetch and no second write. -/
def update_collector (collector_id : String)
    (name description category : Option String) (fields : JsObj)
    (fetch : Except JsError FetchResponse)
    (put : Collector → Option String → Except JsError Json) :
    ToolResult × List Request :=
  let getReq := Request.get ("/v1/collectors/" ++ collector_id) []
  match fetch with
  | .error e => (errorContent (handleApiError e), [getReq])
  | .ok getResponse =>
    let currentCollector := getResponse.collector
    let etag := getResponse.etag
    let collectorData :=
      mergeCollector currentCollector name description category fields
    let putReq :=
      Request.putCollector ("/v1/collectors/" ++ collector_id) collectorData etag
    match put collectorData etag with
    | .error e => (errorContent (handleApiError e), [getReq, putReq])
    | .ok data => (textContent (Json.pretty 0 data), [getReq, putReq])

/-- get_search_job_results of the README implementation: GET the messages
url, adding the limit and offset query parameters, each rendered with
toString, only when the argument is defined. -/
def get_search_job_results (job_id : String) (limit offset : Option Int)
    (r : Except JsError Json) : ToolResult × List Request :=
  let url := "/v1/search/jobs/" ++ job_id ++ "/messages"
  let params :=
    (match limit with
     | some l => [("limit", toString l)]
     | none => []) ++
    (match offset with
     | some o => [("offset", toString o)]
     | none => [])
  let trace := [Request.get url params]
  match r with
  | .ok data => (textContent (Json.pretty 0 data), trace)
  | .error e => (errorContent (handleApiError e), trace)

end Readme

/-- The three environment variables the server reads, each possibly
absent. -/
structure Env where
  accessId : Option String
  accessKey : Option String
  apiEndpoint : Option String

/-- JavaScript `v || d` on a possibly-undefined environment string: absent
or empty falls back to the default. -/
def jsOrDefault (v : Option String) (d : String) : String :=
  match v with
  | some s => if s = "" then d else s
  | none => d

/-- The axios client configuration built at startup: base url and the
basic-auth credential pair. -/
structure AxiosConfig where
  baseURL : String
  authUsername : String
  authPassword : String

/-- Result of module startup: a fatal exit with a code, or a running
process holding the configured client. -/
inductive StartupResult where
  | exited (code : Nat)
  | running (client : AxiosConfig)

/-- Startup of both implementations (src/index.ts lines 25 to 46): read the
three variables with empty-string and default-endpoint fallbacks, exit
with code 1 when either credential is falsy — this check precedes the
axios.create call and the main function, so no client exists and no tool
is registered on the exit path — and otherwise build the client. -/
def startup (env : Env) : StartupResult :=
  let accessId := jsOrDefault env.accessId ""
  let accessKey := jsOrDefault env.accessKey ""
  let apiEndpoint := jsOrDefault env.apiEndpoint "https://api.sumologic.com/api"
  if accessId = "" || accessKey = "" then .exited 1
  else .running ⟨apiEndpoint, accessId, accessKey⟩

/-- The names registered with the protocol server by the main function, in
source order; registration happens only after startup succeeded, so a
fatal startup registers nothing. -/
def registeredTools (env : Env) : List String :=
  match startup env with
  | .exited _ => []
  | .running _ =>
    ["check_connection", "list_collectors", "get_collector",
     "create_hosted_collector", "update_collector", "delete_collector",
     "list_sources", "get_source", "create_http_source", "start_search_job",
     "check_search_job_status", "get_search_job_results", "list_monitors",
     "get_monitor"]

/-- The first declared required parameter that the supplied arguments do
not name, if any. -/
def missingRequired (params : List IndexTs.McpToolParameter)
    (args : List (String × String)) : Option String :=
  (params.find? fun p => p.required && !(args.any fun a => a.1 == p.name)).map
    IndexTs.McpToolParameter.name

/-- Outcome of dispatching one invocation: rejected by schema validation
naming the missing parameter, or handled with the result the handler
returned. -/
inductive DispatchOutcome where
  | rejected (missingParam : String)
  | handled (result : ToolResult)

/-- Modelled from the spec: the Tool Registry / Protocol Adapter validates
each InvocationRequest against the matching ToolDescriptor schema —
required parameters present — before the handler body runs, rejecting the
invocation otherwise; the validation code itself lives in the external
protocol SDK, not under src/, while the schema it enforces is the one the
source declares.  On rejection the handler never runs, so the request
trace is empty. -/
def dispatch (params : List IndexTs.McpToolParameter)
    (args : List (String × String))
    (run : List (String × String) → ToolResult × List Request) :
    DispatchOutcome × List Request :=
  match missingRequired params args with
  | some p => (.rejected p, [])
  | none =>
    let handled := run args
    (.handled handled.1, handled.2)

/-! Helper lemmas about the two update_collector embeddings, shared by the
claim theorems below. -/

/-- When the fetch succeeds, the README update handler issues exactly the
GET followed by one PUT of the merged body under the fetched etag,
whatever the PUT outcome. -/
theorem readme_update_trace_ok (cid : String) (n d c : Option String)
    (f : JsObj) (coll : Collector) (etag : Option String)
    (put : Collector → Option String → Except JsError Json) :
    (Readme.update_collector cid n d c f (.ok ⟨coll, etag⟩) put).2 =
      [Request.get ("/v1/collectors/" ++ cid) [],
       Request.putCollector ("/v1/collectors/" ++ cid)
         (mergeCollector coll n d c f) etag] := by
  unfold Readme.update_collector
  rcases hp : put (mergeCollector coll n d c f) etag with e | d2 <;> simp [hp]

/-- When the fetch succeeds, the index.ts update handler issues exactly the
GET followed by one PUT of the merged body under the fetched etag,
whatever the PUT outcome. -/
theorem indexTs_update_trace_ok (cid : String) (n d c : Option String)
    (f : JsObj) (coll : Collector) (etag : Option String)
    (put : Collector → Option String → Except JsError Json) :
    (IndexTs.update_collector cid n d c f (.ok ⟨coll, etag⟩) put).2 =
      [Request.get ("/v1/collectors/" ++ cid) [],
       Request.putCollector ("/v1/collectors/" ++ cid)
         (mergeCollector coll n d c f) etag] := by
  unfold IndexTs.update_collector
  rcases hp : put (mergeCollector coll n d c f) etag with e | d2 <;> simp [hp]

/-- When the fetch succeeds and the PUT is rejected, the README update
handler returns the normalized diagnostic as an error-flagged result and
its trace is the GET and the single PUT. -/
theorem readme_update_put_error (cid : String) (n d c : Option String)
    (f : JsObj) (coll : Collector) (etag : Option String)
    (put : Collector → Option String → Except JsError Json) (e : JsError)
    (hp : put (mergeCollector coll n d c f) etag = .error e) :
    Readme.update_collector cid n d c f (.ok ⟨coll, etag⟩) put =
      (Readme.errorContent (Readme.handleApiError e),
       [Request.get ("/v1/collectors/" ++ cid) [],
        Request.putCollector ("/v1/collectors/" ++ cid)
          (mergeCollector coll n d c f) etag]) := by
  unfold Readme.update_collector
  simp [hp]

/-- When the fetch succeeds and the PUT is rejected, the index.ts update
handler throws the normalized diagnostic and its trace is the GET and the
single PUT. -/
theorem indexTs_update_put_error (cid : String) (n d c : Option String)
    (f : JsObj) (coll : Collector) (etag : Option String)
    (put : Collector → Option String → Except JsError Json) (e : JsError)
    (hp : put (mergeCollector coll n d c f) etag = .error e) :
    IndexTs.update_collector cid n d c f (.ok ⟨coll, etag⟩) put =
      (IndexTs.Outcome.thrown (IndexTs.handleApiError e),
       [Request.get ("/v1/collectors/" ++ cid) [],
        Request.putCollector ("/v1/collectors/" ++ cid)
          (mergeCollector coll n d c f) etag]) := by
  unfold IndexTs.update_collector
  simp [hp]

/-- C1: for every update_collector invocation where the fetch returns the
collector with name A, description d, category c under etag v1 and the
caller supplies only the name B, the trace of both implementations is the
GET followed by a single conditional PUT whose body is the fetched
collector with name replaced by B, description d and category c unchanged,
and whose If-Match value is v1. -/
theorem C1_update_collector_merge_and_precondition :
    ∀ (collector_id : String)
      (put : Collector → Option String → Except JsError Json),
      (Readme.update_collector collector_id (some "B") none none .undefined
          (.ok ⟨⟨some "A", some "d", some "c", none, []⟩, some "v1"⟩) put).2 =
        [Request.get ("/v1/collectors/" ++ collector_id) [],
         Request.putCollector ("/v1/collectors/" ++ collector_id)
           ⟨some "B", some "d", some "c", none, []⟩ (some "v1")] ∧
      (IndexTs.update_collector collector_id (some "B") none none .undefined
          (.ok ⟨⟨some "A", some "d", some "c", none, []⟩, some "v1"⟩) put).2 =
        [Request.get ("/v1/collectors/" ++ collector_id) [],
         Request.putCollector ("/v1/collectors/" ++ collector_id)
           ⟨some "B", some "d", some "c", none, []⟩ (some "v1")] := by
  intro collector_id put
  rw [readme_update_trace_ok, indexTs_update_trace_ok]
  refine ⟨?_, ?_⟩ <;> simp [mergeCollector, jsOrStr, jsOrObj]

/-- C2: in the update_collector merge, a defined description always
overrides, the empty string included, while name and category override
only when non-empty and an object-typed fields value overrides only when
truthy, so an explicit empty string for name or category, or a falsy
(undefined or null) fields value, keeps the fetched value. -/
theorem C2_update_merge_override_semantics :
    ∀ (currentCollector : Collector) (n d c : Option String) (f : JsObj)
      (s t : String) (fl : Fields),
      (mergeCollector currentCollector n (some t) c f).description = some t ∧
      (mergeCollector currentCollector (some "") d c f).name =
        currentCollector.name ∧
      (s ≠ "" →
        (mergeCollector currentCollector (some s) d c f).name = some s) ∧
      (mergeCollector currentCollector n d (some "") f).category =
        currentCollector.category ∧
      (s ≠ "" →
        (mergeCollector currentCollector n d (some s) f).category = some s) ∧
      (mergeCollector currentCollector n d c .undefined).fields =
        currentCollector.fields ∧
      (mergeCollector currentCollector n d c .null).fields =
        currentCollector.fields ∧
      (mergeCollector currentCollector n d c (.obj fl)).fields = some fl := by
  intro currentCollector n d c f s t fl
  refine ⟨rfl, rfl, ?_, rfl, ?_, rfl, rfl, rfl⟩ <;>
    intro hs <;> simp [mergeCollector, jsOrStr, hs]

/-- Witness for C2 at concrete inputs: the non-empty string x is truthy and
overrides both name and category. -/
theorem C2_update_merge_override_semantics_witness :
    ("x" : String) ≠ "" ∧
    (mergeCollector ⟨some "a", some "b", some "c", none, []⟩
      (some "x") none none .undefined).name = some "x" ∧
    (mergeCollector ⟨some "a", some "b", some "c", none, []⟩
      none none (some "x") .undefined).category = some "x" :=
  ⟨by decide,
   (C2_update_merge_override_semantics ⟨some "a", some "b", some "c", none, []⟩
      none none none .undefined "x" "t" []).2.2.1 (by decide),
   (C2_update_merge_override_semantics ⟨some "a", some "b", some "c", none, []⟩
      none none none .undefined "x" "t" []).2.2.2.2.1 (by decide)⟩

/-- C3 counterexample: in src/index.ts the list_collectors handler does not
return an error-flagged result on remote failure — it throws an Error
carrying the normalized diagnostic, so the rejection crosses the handler
boundary.  Concretely, for the failure with message boom the handler
outcome is the thrown variant, not a returned one. -/
theorem C3_counterexample_indexTs_handler_throws :
    (IndexTs.list_collectors
        (Except.error ⟨none, some "boom", false, true⟩)).1 =
      IndexTs.Outcome.thrown "Error: boom" := rfl

/-- C3 amended: on remote failure the Error Normalizer output always
reaches the protocol adapter, but the mechanism differs: the README
handlers return it as an error-flagged result, except check_connection,
which returns a plain status payload with the flag unset; the index.ts
handlers instead throw an Error carrying the normalizer output past the
handler boundary, again with check_connection excepted, which returns a
plain status object. -/
theorem C3_amended_error_surfacing :
    ∀ (e : JsError) (collector_id job_id nm : String)
      (put : Collector → Option String → Except JsError Json),
      (Readme.list_collectors (.error e)).1 =
        Readme.errorContent (Readme.handleApiError e) ∧
      (Readme.get_collector collector_id (.error e)).1 =
        Readme.errorContent (Readme.handleApiError e) ∧
      (Readme.create_hosted_collector nm none none none (.error e)).1 =
        Readme.errorContent (Readme.handleApiError e) ∧
      (Readme.get_search_job_results job_id none none (.error e)).1 =
        Readme.errorContent (Readme.handleApiError e) ∧
      (Readme.update_collector collector_id none none none .undefined
          (.error e) put).1 =
        Readme.errorContent (Readme.handleApiError e) ∧
      ((Readme.check_connection (.error e)).1).isError = false ∧
      (IndexTs.list_collectors (.error e)).1 =
        IndexTs.Outcome.thrown (IndexTs.handleApiError e) ∧
      (IndexTs.get_collector collector_id (.error e)).1 =
        IndexTs.Outcome.thrown (IndexTs.handleApiError e) ∧
      (IndexTs.create_hosted_collector nm none none none (.error e)).1 =
        IndexTs.Outcome.thrown (IndexTs.handleApiError e) ∧
      (IndexTs.get_search_job_results job_id none none (.error e)).1 =
        IndexTs.Outcome.thrown (IndexTs.handleApiError e) ∧
      (IndexTs.update_collector collector_id none none none .undefined
          (.error e) put).1 =
        IndexTs.Outcome.thrown (IndexTs.handleApiError e) ∧
      (IndexTs.check_connection (.error e)).1 =
        IndexTs.Outcome.okStatus "error" (IndexTs.handleApiError e) := by
  intro e collector_id job_id nm put
  exact ⟨rfl, rfl, rfl, rfl, rfl, rfl, rfl, rfl, rfl, rfl, rfl, rfl⟩

/-- C4 counterexample: the src/index.ts normalizer has no third branch —
an error carrying neither a structured response nor a message is rendered
as Error: undefined, not as the generic Unknown error occurred text the
claim requires. -/
theorem C4_counterexample_missing_unknown_branch :
    IndexTs.handleApiError ⟨none, none, false, false⟩ = "Error: undefined" ∧
    IndexTs.handleApiError ⟨none, none, false, false⟩ ≠
      "Unknown error occurred" :=
  ⟨rfl, by decide⟩

/-- C4 amended: both normalizers are total pure functions; the README one
follows the three-branch policy of the claim, with the first branch also
requiring the error to be an AxiosError instance, while the index.ts one
has only the first two branches and renders an absent message as the text
undefined instead of falling back to Unknown error occurred. -/
theorem C4_amended_normalizer_cases :
    ∀ (e : JsError) (r : ErrResponse),
      (e.response = some r →
        IndexTs.handleApiError e =
          "API Error: " ++ toString r.status ++ " - " ++
            Json.stringify r.data) ∧
      (e.response = none →
        IndexTs.handleApiError e = "Error: " ++ jsTemplate e.message) ∧
      (e.isAxiosError = true → e.response = some r →
        Readme.handleApiError e =
          "API Error: " ++ toString r.status ++ " - " ++
            Json.stringify r.data) ∧
      ((e.isAxiosError = false ∨ e.response = none) →
        e.isErrorInstance = true →
        Readme.handleApiError e = "Error: " ++ jsTemplate e.message) ∧
      ((e.isAxiosError = false ∨ e.response = none) →
        e.isErrorInstance = false →
        Readme.handleApiError e = "Unknown error occurred") := by
  intro e r
  obtain ⟨resp, msg, ax, inst⟩ := e
  refine ⟨?_, ?_, ?_, ?_, ?_⟩
  · intro h
    cases h
    rfl
  · intro h
    cases h
    rfl
  · intro hax hresp
    cases hax
    cases hresp
    rfl
  · intro hor hinst
    cases hinst
    rcases hor with h | h
    · cases h
      rfl
    · cases h
      cases ax <;> rfl
  · intro hor hinst
    cases hinst
    rcases hor with h | h
    · cases h
      rfl
    · cases h
      cases ax <;> rfl

/-- Witness for C4 amended at concrete errors: a structured 404 response
takes the first branch of the index.ts normalizer, and an empty error
takes the generic branch of the README normalizer. -/
theorem C4_amended_normalizer_cases_witness :
    (JsError.mk (some ⟨404, Json.obj [("error", Json.str "not found")]⟩)
        (some "Request failed") true true).response =
      some ⟨404, Json.obj [("error", Json.str "not found")]⟩ ∧
    IndexTs.handleApiError
        ⟨some ⟨404, Json.obj [("error", Json.str "not found")]⟩,
         some "Request failed", true, true⟩ =
      "API Error: " ++ toString (404 : Nat) ++ " - " ++
        Json.stringify (Json.obj [("error", Json.str "not found")]) ∧
    Readme.handleApiError ⟨none, none, false, false⟩ =
      "Unknown error occurred" :=
  ⟨rfl,
   (C4_amended_normalizer_cases
      ⟨some ⟨404, Json.obj [("error", Json.str "not found")]⟩,
       some "Request failed", true, true⟩
      ⟨404, Json.obj [("error", Json.str "not found")]⟩).1 rfl,
   (C4_amended_normalizer_cases ⟨none, none, false, false⟩
      ⟨404, Json.obj [("error", Json.str "not found")]⟩).2.2.2.2
      (Or.inl rfl) rfl⟩

/-- C5 counterexample: the claim says the handler returns an error result
when the conditional write is rejected, but the src/index.ts update
handler does not return one — at a concrete 412 conflict its outcome is
the thrown variant, an Error rejected past the handler boundary carrying
the normalized diagnostic, after the GET and the single PUT. -/
theorem C5_counterexample_indexTs_throws_on_conflict :
    IndexTs.update_collector "c1" none none none .undefined
        (.ok ⟨⟨some "A", none, none, none, []⟩, some "v1"⟩)
        (fun _ _ => .error ⟨some ⟨412, Json.str "conflict"⟩,
          some "Request failed", true, true⟩) =
      (IndexTs.Outcome.thrown "API Error: 412 - \"conflict\"",
       [Request.get "/v1/collectors/c1" [],
        Request.putCollector "/v1/collectors/c1"
          ⟨some "A", none, none, none, []⟩ (some "v1")]) := rfl

/-- C5 amended: every update_collector invocation, in both
implementations, issues at most one conditional PUT and at most one GET;
when the fetch succeeded and the conditional PUT is rejected, the README
handler returns the normalized diagnostic as an error-flagged result while
the index.ts handler throws an Error carrying the normalized diagnostic,
and in both the trace is exactly the GET and the single PUT — no re-fetch
and no second write attempt in either. -/
theorem C5_update_collector_single_write_no_retry :
    ∀ (collector_id : String) (name description category : Option String)
      (fields : JsObj) (fetch : Except JsError FetchResponse)
      (put : Collector → Option String → Except JsError Json),
      (Readme.update_collector collector_id name description category fields
          fetch put).2.countP Request.isPut ≤ 1 ∧
      (Readme.update_collector collector_id name description category fields
          fetch put).2.countP Request.isGet ≤ 1 ∧
      (IndexTs.update_collector collector_id name description category fields
          fetch put).2.countP Request.isPut ≤ 1 ∧
      (IndexTs.update_collector collector_id name description category fields
          fetch put).2.countP Request.isGet ≤ 1 ∧
      (∀ (fr : FetchResponse) (e : JsError),
        fetch = .ok fr →
        put (mergeCollector fr.collector name description category fields)
            fr.etag = .error e →
        Readme.update_collector collector_id name description category fields
            fetch put =
          (Readme.errorContent (Readme.handleApiError e),
           [Request.get ("/v1/collectors/" ++ collector_id) [],
            Request.putCollector ("/v1/collectors/" ++ collector_id)
              (mergeCollector fr.collector name description category fields)
              fr.etag]) ∧
        IndexTs.update_collector collector_id name description category
            fields fetch put =
          (IndexTs.Outcome.thrown (IndexTs.handleApiError e),
           [Request.get ("/v1/collectors/" ++ collector_id) [],
            Request.putCollector ("/v1/collectors/" ++ collector_id)
              (mergeCollector fr.collector name description category fields)
              fr.etag])) := by
  intro collector_id name description category fields fetch put
  refine ⟨?_, ?_, ?_, ?_, ?_⟩
  · rcases fetch with e | fr
    · simp [Readme.update_collector, Request.isPut]
    · obtain ⟨coll, etag⟩ := fr
      rw [readme_update_trace_ok]
      simp [Request.isPut, Request.isGet]
  · rcases fetch with e | fr
    · simp [Readme.update_collector, Request.isGet]
    · obtain ⟨coll, etag⟩ := fr
      rw [readme_update_trace_ok]
      simp [Request.isPut, Request.isGet]
  · rcases fetch with e | fr
    · simp [IndexTs.update_collector, Request.isPut]
    · obtain ⟨coll, etag⟩ := fr
      rw [indexTs_update_trace_ok]
      simp [Request.isPut, Request.isGet]
  · rcases fetch with e | fr
    · simp [IndexTs.update_collector, Request.isGet]
    · obtain ⟨coll, etag⟩ := fr
      rw [indexTs_update_trace_ok]
      simp [Request.isPut, Request.isGet]
  · intro fr e hfetch hput
    cases hfetch
    obtain ⟨coll, etag⟩ := fr
    exact ⟨readme_update_put_error collector_id name description category
             fields coll etag put e hput,
           indexTs_update_put_error collector_id name description category
             fields coll etag put e hput⟩

/-- Witness for C5 at a concrete conflict: the fetch returns a collector
under etag v1 and the remote rejects the PUT with a 412, so the README
handler returns the error-flagged normalized diagnostic after exactly one
GET and one PUT. -/
theorem C5_update_collector_single_write_no_retry_witness :
    (Except.ok ⟨⟨some "A", none, none, none, []⟩, some "v1"⟩ =
      (Except.ok ⟨⟨some "A", none, none, none, []⟩, some "v1"⟩ :
        Except JsError FetchResponse)) ∧
    ((fun (_ : Collector) (_ : Option String) =>
        (Except.error ⟨some ⟨412, Json.str "conflict"⟩, some "Request failed",
          true, true⟩ : Except JsError Json))
        (mergeCollector ⟨some "A", none, none, none, []⟩ none none none .undefined)
        (some "v1") =
      Except.error ⟨some ⟨412, Json.str "conflict"⟩, some "Request failed",
        true, true⟩) ∧
    Readme.update_collector "c1" none none none .undefined
        (.ok ⟨⟨some "A", none, none, none, []⟩, some "v1"⟩)
        (fun _ _ => .error ⟨some ⟨412, Json.str "conflict"⟩,
          some "Request failed", true, true⟩) =
      (Readme.errorContent (Readme.handleApiError
          ⟨some ⟨412, Json.str "conflict"⟩, some "Request failed",
            true, true⟩),
       [Request.get "/v1/collectors/c1" [],
        Request.putCollector "/v1/collectors/c1"
          (mergeCollector ⟨some "A", none, none, none, []⟩ none none none
            .undefined) (some "v1")]) :=
  ⟨rfl, rfl,
   ((C5_update_collector_single_write_no_retry "c1" none none none .undefined
      (.ok ⟨⟨some "A", none, none, none, []⟩, some "v1"⟩)
      (fun _ _ => .error ⟨some ⟨412, Json.str "conflict"⟩,
        some "Request failed", true, true⟩)).2.2.2.2
      ⟨⟨some "A", none, none, none, []⟩, some "v1"⟩
      ⟨some ⟨412, Json.str "conflict"⟩, some "Request failed", true, true⟩
      rfl rfl).1⟩

/-- C6: get_search_job_results with limit 50 and offset 0 emits one GET
whose query parameters are the strings 50 and 0 — the zero offset is sent,
not dropped — and with neither supplied it emits one GET with no limit or
offset parameter, in both implementations. -/
theorem C6_search_results_query_params :
    ∀ (job_id : String) (r r2 : Except JsError Json),
      (Readme.get_search_job_results job_id (some 50) (some 0) r).2 =
        [Request.get ("/v1/search/jobs/" ++ job_id ++ "/messages")
          [("limit", "50"), ("offset", "0")]] ∧
      (Readme.get_search_job_results job_id none none r2).2 =
        [Request.get ("/v1/search/jobs/" ++ job_id ++ "/messages") []] ∧
      (IndexTs.get_search_job_results job_id (some 50) (some 0) r).2 =
        [Request.get ("/v1/search/jobs/" ++ job_id ++ "/messages")
          [("limit", "50"), ("offset", "0")]] ∧
      (IndexTs.get_search_job_results job_id none none r2).2 =
        [Request.get ("/v1/search/jobs/" ++ job_id ++ "/messages") []] := by
  intro job_id r r2
  refine ⟨?_, ?_, ?_, ?_⟩
  · cases r <;> rfl
  · cases r2 <;> rfl
  · cases r <;> rfl
  · cases r2 <;> rfl

/-- C7: create_hosted_collector invoked with only the name web-logs issues
a single POST whose body has collectorType Hosted and name web-logs, with
description, category and fields undefined, in both implementations. -/
theorem C7_create_hosted_collector_body :
    ∀ (r r2 : Except JsError Json),
      (Readme.create_hosted_collector "web-logs" none none none r).2 =
        [Request.postCollector "/v1/collectors"
          ⟨"Hosted", "web-logs", none, none, none⟩] ∧
      (IndexTs.create_hosted_collector "web-logs" none none none r2).2 =
        [Request.postCollector "/v1/collectors"
          ⟨"Hosted", "web-logs", none, none, none⟩] := by
  intro r r2
  exact ⟨by cases r <;> rfl, by cases r2 <;> rfl⟩

/-- C8: startup exits fatally with code 1 when either credential variable
is absent, on which path no tool is registered and no client exists, and
when the endpoint variable is unset any running configuration uses the
default public endpoint. -/
theorem C8_startup_credentials_and_default_endpoint :
    ∀ (env : Env),
      (env.accessId = none ∨ env.accessKey = none →
        startup env = .exited 1 ∧ registeredTools env = []) ∧
      (env.apiEndpoint = none →
        ∀ cfg : AxiosConfig, startup env = .running cfg →
          cfg.baseURL = "https://api.sumologic.com/api") := by
  intro env
  obtain ⟨aid, akey, aep⟩ := env
  constructor
  · intro h
    have hex : startup ⟨aid, akey, aep⟩ = .exited 1 := by
      rcases h with h | h <;> cases h <;> simp [startup, jsOrDefault]
    exact ⟨hex, by simp [registeredTools, hex]⟩
  · intro h cfg hrun
    cases h
    rcases aid with _ | i
    · simp [startup, jsOrDefault] at hrun
    · rcases akey with _ | k
      · simp [startup, jsOrDefault] at hrun
      · simp only [startup, jsOrDefault] at hrun
        by_cases hi : i = ""
        · simp [hi] at hrun
        · by_cases hk : k = ""
          · simp [hi, hk] at hrun
          · simp [hi, hk] at hrun
            subst hrun
            rfl

/-- Witness for C8: with the access id absent startup exits with code 1
and registers nothing, and with both credentials set but the endpoint
unset the client runs against the default public endpoint. -/
theorem C8_startup_credentials_and_default_endpoint_witness :
    ((Env.mk none (some "k") (some "u")).accessId = none ∨
      (Env.mk none (some "k") (some "u")).accessKey = none) ∧
    (startup (Env.mk none (some "k") (some "u")) = .exited 1 ∧
      registeredTools (Env.mk none (some "k") (some "u")) = []) ∧
    (Env.mk (some "i") (some "k") none).apiEndpoint = none ∧
    startup (Env.mk (some "i") (some "k") none) =
      .running ⟨"https://api.sumologic.com/api", "i", "k"⟩ ∧
    AxiosConfig.baseURL ⟨"https://api.sumologic.com/api", "i", "k"⟩ =
      "https://api.sumologic.com/api" :=
  ⟨Or.inl rfl,
   (C8_startup_credentials_and_default_endpoint
      (Env.mk none (some "k") (some "u"))).1 (Or.inl rfl),
   rfl, rfl,
   (C8_startup_credentials_and_default_endpoint
      (Env.mk (some "i") (some "k") none)).2 rfl
      ⟨"https://api.sumologic.com/api", "i", "k"⟩ rfl⟩

/-- C9: an invocation of get_collector whose arguments do not include the
required collector_id parameter is rejected by schema validation before
the handler runs — the dispatch outcome names the missing parameter and
the request trace is empty, so no network call is attempted. -/
theorem C9_missing_required_param_rejected :
    ∀ (args : List (String × String))
      (run : List (String × String) → ToolResult × List Request),
      (args.any fun a => a.1 == "collector_id") = false →
      dispatch IndexTs.get_collector_parameters args run =
        (DispatchOutcome.rejected "collector_id", []) := by
  intro args run h
  simp [dispatch, missingRequired, IndexTs.get_collector_parameters,
    List.find?, h]

/-- Witness for C9: invoking with no arguments at all is rejected with the
missing collector_id and an empty request trace. -/
theorem C9_missing_required_param_rejected_witness :
    (([] : List (String × String)).any fun a => a.1 == "collector_id") =
      false ∧
    dispatch IndexTs.get_collector_parameters []
        (fun _ => (Readme.textContent "ok",
          [Request.get "/v1/collectors" []])) =
      (DispatchOutcome.rejected "collector_id", []) :=
  ⟨rfl, C9_missing_required_param_rejected []
    (fun _ => (Readme.textContent "ok", [Request.get "/v1/collectors" []]))
    rfl⟩

/-- C10: check_connection never produces an error-flagged result — the
README handler leaves the error flag unset on every outcome and renders a
status object with the normalized diagnostic as message on failure, and
the index.ts handler returns (never throws) a status object with the
normalized diagnostic on failure. -/
theorem C10_check_connection_never_error_flagged :
    ∀ (r : Except JsError Json) (e : JsError),
      ((Readme.check_connection r).1).isError = false ∧
      (Readme.check_connection (Except.error e)).1 =
        Readme.textContent (Json.stringify (Json.obj
          [("status", Json.str "error"),
           ("message", Json.str (Readme.handleApiError e))])) ∧
      (IndexTs.check_connection (Except.error e)).1 =
        IndexTs.Outcome.okStatus "error" (IndexTs.handleApiError e) := by
  intro r e
  refine ⟨?_, rfl, rfl⟩
  cases r <;> rfl

end Sumo
